import Mathlib

/-!
Verification model of the beePy content-addressing and feed-resolution
subsystem.  The definitions below are a shallow embedding of the code in
src/src/bee_py/bee.py (class Bee) together with the components that
bee.py imports from modules whose sources are not part of this tree
(the SOC codec, the signer, the feed index codec and the retrievable
scan); those missing components are modelled from the specification, as
indicated in their doc comments.  Byte strings are modelled as List Nat
with each element below 256.
-/

namespace BeePy

/-- Errors raised by the wrapper and by the modelled core components.
The Python code raises BeeError / BeeArgumentError / ValueError /
TypeError / AttributeError; the taxonomy of the specification maps
BeeArgumentError on chunk size violations to SizeError, the BeeError
raised for non-sequence deep verification to UnsupportedOperationError,
transport absence to ChunkNotFoundError and failed SOC verification to
SignatureMismatchError. -/
inductive PyError where
  | beeError (msg : String)
  | beeArgumentError (msg : String)
  | typeError (msg : String)
  | valueError (msg : String)
  | attributeError (name : String)
  | chunkNotFound
  | signatureMismatch
deriving DecidableEq

/-- Feed types, the closed variant of the sequence / epoch tags. -/
inductive FeedType where
  | sequence
  | epoch
deriving DecidableEq

/-- Big-endian byte encoding of a natural number into a fixed width. -/
def toBEBytes : Nat → Nat → List Nat
  | 0, _ => []
  | w + 1, n => toBEBytes w (n / 256) ++ [n % 256]

/-- Big-endian byte decoding. -/
def fromBEBytes (l : List Nat) : Nat :=
  l.foldl (fun acc b => acc * 256 + b) 0

/-- Flip bit b of the byte at position i (tampering primitive). -/
def flipBit (l : List Nat) (i b : Nat) : List Nat :=
  l.set i ((l.getD i 0) ^^^ 2 ^ b)

/-- Feed index values: a sequence number or an epoch (base, level) pair. -/
inductive FeedIndex where
  | seq (n : Nat)
  | epoch (base level : Nat)
deriving DecidableEq

/-- Modelled from the spec: the Feed Index Codec module is not under src.
A sequence index is encoded as an 8-byte big-endian value left-padded
with zeros to 32 bytes. -/
def encodeSequenceIndex (n : Nat) : List Nat :=
  List.replicate 24 0 ++ toBEBytes 8 n

/-- Modelled from the spec: decoding of the 32-byte big-endian
zero-padded sequence index form. -/
def decodeSequenceIndex (l : List Nat) : Option Nat :=
  if l.length = 32 then some (fromBEBytes l) else none

/-- Modelled from the spec: an epoch index is encoded as base
(8 bytes big-endian), then level (1 byte), then zero padding to
32 bytes. -/
def encodeEpochIndex (base level : Nat) : List Nat :=
  toBEBytes 8 base ++ ([level] ++ List.replicate 23 0)

/-- Modelled from the spec: decoding of the 32-byte epoch index form. -/
def decodeEpochIndex (l : List Nat) : Option (Nat × Nat) :=
  if l.length = 32 then some (fromBEBytes (l.take 8), (l.drop 8).headD 0)
  else none

/-- Modelled from the spec: the index codec selected by the variant. -/
def encodeIndex : FeedIndex → List Nat
  | .seq n => encodeSequenceIndex n
  | .epoch base level => encodeEpochIndex base level

/-- Modelled from the spec: the index codec decoder selected by the
feed type tag. -/
def decodeIndex : FeedType → List Nat → Option FeedIndex
  | .sequence, l => (decodeSequenceIndex l).map FeedIndex.seq
  | .epoch, l => (decodeEpochIndex l).map (fun p => FeedIndex.epoch p.1 p.2)

/-- Modelled from the spec: the Signer module is not under src.  An
owner address is the 20-byte value derived from the private key; the
derivation is injective on the key space (keys below 256 to the 20). -/
def ownerAddress (key : Nat) : List Nat :=
  toBEBytes 20 key

/-- Modelled from the spec: an idealized deterministic recoverable
signature of 65 bytes: signing is deterministic for a given (key,
digest) pair and the owner address can be recovered from a
signature+digest pair.  The model writes the recovery material in the
first 32 bytes, binds the digest, and ends with a recovery byte. -/
def sign (key : Nat) (digest : List Nat) : List Nat :=
  toBEBytes 32 key ++ (digest ++ [27])

/-- Modelled from the spec: address recovery from a signature+digest
pair.  Recovery succeeds exactly when the signature is a well-formed
signature of the given digest under some valid key, and then returns
that key's owner address. -/
def recover_address (digest sig : List Nat) : Option (List Nat) :=
  if fromBEBytes (sig.take 32) < 256 ^ 20 ∧
      sig = sign (fromBEBytes (sig.take 32)) digest then
    some (ownerAddress (fromBEBytes (sig.take 32)))
  else none

/-- A signed single-owner chunk: signature, identifier and the wrapped
chunk address (the chunk payload bytes do not take part in the
signature digest and are omitted from the model). -/
structure SignedSOC where
  signature : List Nat
  identifier : List Nat
  chunkAddress : List Nat
deriving DecidableEq

/-- Modelled from the spec: the SOC address is the digest of
identifier concatenated with the owner address.  The digest function is
a parameter of the model; the spec assumes it collision-free. -/
def soc_address (hash : List Nat → List Nat) (identifier owner : List Nat) :
    List Nat :=
  hash (identifier ++ owner)

/-- Modelled from the spec: build a signed SOC, producing a signature
over the digest of identifier concatenated with the wrapped chunk
address. -/
def build (hash : List Nat → List Nat) (key : Nat)
    (identifier chunkAddress : List Nat) : SignedSOC :=
  { signature := sign key (hash (identifier ++ chunkAddress))
    identifier := identifier
    chunkAddress := chunkAddress }

/-- Modelled from the spec: verify a signed SOC against its claimed SOC
address: recover the owner from the signature over the digest of
identifier concatenated with the wrapped chunk address, then confirm
that the digest of identifier concatenated with the recovered owner
equals the claimed SOC address; fail with SignatureMismatchError
otherwise. -/
def verify (hash : List Nat → List Nat) (claimedAddress : List Nat)
    (s : SignedSOC) : Except PyError (List Nat) :=
  match recover_address (hash (s.identifier ++ s.chunkAddress)) s.signature with
  | none => .error .signatureMismatch
  | some owner =>
      if soc_address hash s.identifier owner = claimedAddress then .ok owner
      else .error .signatureMismatch

/-- Modelled from the spec: the feed identifier for a sequence index is
the digest of the encoded index concatenated with the topic. -/
def feedIdentifier (hash : List Nat → List Nat) (topic : List Nat)
    (i : Nat) : List Nat :=
  hash (encodeSequenceIndex i ++ topic)

/-- Modelled from the spec: the SOC address of a sequence feed update,
a function of (index, topic, owner) only. -/
def feedSocAddress (hash : List Nat → List Nat) (owner topic : List Nat)
    (i : Nat) : List Nat :=
  soc_address hash (feedIdentifier hash topic i) owner

/-- The transport collaborator, the external boundary of the core: an
existence probe per chunk address, and whether downloading the latest
update of the (owner, topic) feed succeeds. -/
structure Transport where
  hasChunk : List Nat → Bool
  latestOk : List Nat → List Nat → Bool

/-- Modelled from the spec: the feed reader obtained through
Bee.__make_feed_reader (bee_py.feed.feed is not under src); downloading
the latest update succeeds when the transport has one and otherwise
fails with ChunkNotFoundError. -/
def downloadLatest (t : Transport) (owner topic : List Nat) :
    Except PyError Unit :=
  if t.latestOk owner topic then .ok () else .error .chunkNotFound

/-- Modelled from the spec: bee_py.feed.retrievable is not under src.
The SOC addresses of every sequence update from index 0 up to the
target index inclusive. -/
def get_all_sequence_update_references (hash : List Nat → List Nat)
    (owner topic : List Nat) (index : Nat) : List (List Nat) :=
  (List.range (index + 1)).map (feedSocAddress hash owner topic)

/-- Modelled from the spec: bee_py.feed.retrievable is not under src.
True exactly when every derived update address in the range is
retrievable from the transport collaborator. -/
def are_all_sequential_feeds_update_retrievable (hash : List Nat → List Nat)
    (t : Transport) (owner topic : List Nat) (index : Nat) : Bool :=
  (get_all_sequence_update_references hash owner topic index).all t.hasChunk

/-- Python truthiness of the optional index argument of
Bee.is_feed_retrievable, modelled for optional sequence numbers: None
and the integer 0 are falsy. -/
def indexTruthy : Option Nat → Bool
  | none => false
  | some n => n != 0

/-- The message of the BeeError raised by Bee.is_feed_retrievable for
non-sequence feeds. -/
def onlySequenceMsg : String :=
  "Only Sequence type of Feeds is supported at the moment"

/-- Embedding of Bee.is_feed_retrievable (bee.py lines 810 to 856): if
the index is falsy, try downloading the latest update, return true on
success and re-raise the BeeError otherwise (the source except clause
re-raises); if the index is truthy and the feed type is not sequence,
raise a BeeError; otherwise check all previous sequence index
chunks. -/
def is_feed_retrievable (hash : List Nat → List Nat) (t : Transport)
    (feed_type : FeedType) (owner topic : List Nat) (index : Option Nat) :
    Except PyError Bool :=
  if !(indexTruthy index) then
    match downloadLatest t owner topic with
    | .ok _ => .ok true
    | .error e => .error e
  else if feed_type ≠ FeedType.sequence then .error (.beeError onlySequenceMsg)
  else
    .ok (are_all_sequential_feeds_update_retrievable hash t owner topic
      (index.getD 0))

/-- The message of the ValueError raised by Bee.___resolve_signer when
a signer argument is passed. -/
def resolveSignerRaiseMsg : String :=
  "You have to pass Signer as property to either the method call or constructor! Non found."

/-- Embedding of Bee.___resolve_signer (bee.py lines 190 to 208).  A
signer is modelled as a Nat key; the first argument is the signer the
instance was constructed with (none when the signer option was not
given, in which case the self.signer attribute does not exist and
reading it raises AttributeError), the second is the signer passed to
the call.  The source raises ValueError whenever an explicit signer is
passed, returns the default signer when it exists, and otherwise falls
off the end of the function. -/
def ___resolve_signer (selfSigner : Option Nat) (signer : Option Nat) :
    Except PyError (Option Nat) :=
  if signer.isSome then .error (.valueError resolveSignerRaiseMsg)
  else
    match selfSigner with
    | some s => .ok (some s)
    | none => .error (.attributeError ("signer"))

/-- SPAN_SIZE of bee_py.types.type, modelled from the spec: the span is
an 8-byte little-endian length (the module is not under src). -/
def SPAN_SIZE : Nat := 8

/-- CHUNK_SIZE of bee_py.types.type, modelled from the spec: a chunk
payload holds at most 4096 bytes (the module is not under src). -/
def CHUNK_SIZE : Nat := 4096

/-- The static part of the BeeArgumentError message for undersized
chunks. -/
def minChunkSizeMsg : String := "Chunk must have a minimum size of 8 bytes."

/-- The static part of the BeeArgumentError message for oversized
chunks. -/
def maxChunkSizeMsg : String := "Chunk must have a maximum size of 4096 bytes."

/-- Embedding of the size validation of Bee.upload_chunk (bee.py lines
300 to 336): data below SPAN_SIZE bytes or above CHUNK_SIZE plus
SPAN_SIZE bytes raises BeeArgumentError; otherwise the chunk is handed
to the transport collaborator (modelled as returning unit). -/
def upload_chunk (data : List Nat) : Except PyError Unit :=
  if data.length < SPAN_SIZE then .error (.beeArgumentError minChunkSizeMsg)
  else if data.length > CHUNK_SIZE + SPAN_SIZE then
    .error (.beeArgumentError maxChunkSizeMsg)
  else .ok ()

/-- The attribute names of a Bee instance: the instance attributes
assigned in Bee.__init__ and the methods defined in the class body of
bee.py, after Python private-name mangling (an identifier with two or
more leading underscores and at most one trailing underscore defined in
class Bee is stored under the name prefixed with _Bee). -/
def beeClassAttributeNames : List String :=
  ["url", "signer", "request_options",
   "__init__", "_Bee__get_request_options_for_call", "_Bee__make_feed_reader",
   "_Bee___resolve_signer", "make_feed_topic", "upload_data", "download_data",
   "download_readable_data", "upload_chunk", "download_chunk", "upload_file",
   "download_file", "download_readable_file", "upload_files",
   "upload_collection", "upload_files_from_directory", "create_tag",
   "get_all_tags", "delete_tag", "update_tag", "pin", "unpin", "get_all_pins",
   "get_pin", "reupload_pinned_data", "is_reference_retrievable",
   "is_feed_retrievable", "pss_send", "pss_subscribe", "pss_receive",
   "create_feed_manifest", "make_feed_reader", "make_feed_writer",
   "set_json_feed", "get_json_feed", "make_soc_reader", "make_soc_writer",
   "check_connection", "is_connected"]

/-- The attribute name looked up by make_feed_reader and
make_feed_writer. -/
def resolveSignerName : String := "resolve_signer"

/-- Python attribute lookup on a Bee instance: AttributeError when the
name is neither an instance attribute nor defined by the class. -/
def getattrBee (name : String) : Except PyError Unit :=
  if beeClassAttributeNames.contains name then .ok ()
  else .error (.attributeError name)

/-- Embedding of Bee.make_feed_reader (bee.py lines 1081 to 1115): the
three Bool arguments stand for the outcomes of assert_feed_type,
assert_request_options and make_topic on the actual arguments; after
they pass, the body evaluates self.resolve_signer. -/
def make_feed_reader (feedTypeValid optionsValid topicValid : Bool) :
    Except PyError Unit :=
  if !feedTypeValid then .error (.typeError ("Invalid feed type"))
  else if !optionsValid then .error (.typeError ("Invalid request options"))
  else if !topicValid then .error (.typeError ("Invalid topic"))
  else do
    let _ ← getattrBee resolveSignerName
    .ok ()

/-- Embedding of Bee.make_feed_writer (bee.py lines 1117 to 1147):
assert_request_options runs first, then assert_feed_type and
make_topic; after they pass, the body evaluates self.resolve_signer. -/
def make_feed_writer (feedTypeValid optionsValid topicValid : Bool) :
    Except PyError Unit :=
  if !optionsValid then .error (.typeError ("Invalid request options"))
  else if !feedTypeValid then .error (.typeError ("Invalid feed type"))
  else if !topicValid then .error (.typeError ("Invalid topic"))
  else do
    let _ ← getattrBee resolveSignerName
    .ok ()

/-- A transport on which every existence probe fails but the latest
update downloads successfully. -/
def cxLatestOnlyTransport : Transport :=
  { hasChunk := fun _ => false, latestOk := fun _ _ => true }

/-- A transport on which every existence probe fails and downloading
the latest update fails. -/
def cxEmptyTransport : Transport :=
  { hasChunk := fun _ => false, latestOk := fun _ _ => false }

/-- A transport on which every probe succeeds. -/
def allTransport : Transport :=
  { hasChunk := fun _ => true, latestOk := fun _ _ => true }

theorem length_toBEBytes (w n : Nat) : (toBEBytes w n).length = w := by
  induction w generalizing n with
  | zero => rfl
  | succ w ih => simp [toBEBytes, ih]

theorem fromBEBytes_append_singleton (l : List Nat) (a : Nat) :
    fromBEBytes (l ++ [a]) = fromBEBytes l * 256 + a := by
  simp [fromBEBytes, List.foldl_append]

theorem fromBEBytes_toBEBytes (w : Nat) :
    ∀ n : Nat, n < 256 ^ w → fromBEBytes (toBEBytes w n) = n := by
  induction w with
  | zero =>
    intro n hn
    simp [toBEBytes, fromBEBytes]
    omega
  | succ w ih =>
    intro n hn
    have hdiv : n / 256 < 256 ^ w := by
      rw [pow_succ, Nat.mul_comm] at hn
      exact Nat.div_lt_of_lt_mul hn
    show fromBEBytes (toBEBytes w (n / 256) ++ [n % 256]) = n
    rw [fromBEBytes_append_singleton, ih _ hdiv]
    omega

theorem fromBEBytes_zero_prefix (k : Nat) (l : List Nat) :
    fromBEBytes (List.replicate k 0 ++ l) = fromBEBytes l := by
  induction k with
  | zero => rfl
  | succ k ih =>
    have h0 : (0 : Nat) * 256 + 0 = 0 := by norm_num
    calc fromBEBytes (List.replicate (k + 1) 0 ++ l)
        = List.foldl (fun acc b => acc * 256 + b) (0 * 256 + 0)
            (List.replicate k 0 ++ l) := by
          simp [List.replicate_succ, fromBEBytes]
      _ = fromBEBytes (List.replicate k 0 ++ l) := by rw [h0]; rfl
      _ = fromBEBytes l := ih

theorem xor_two_pow_ne (y b : Nat) : y ^^^ 2 ^ b ≠ y := by
  intro h
  have h1 : y ^^^ (y ^^^ 2 ^ b) = y ^^^ y := by rw [h]
  rw [Nat.xor_cancel_left, Nat.xor_self] at h1
  exact absurd h1 (Nat.pos_iff_ne_zero.mp (Nat.pos_pow_of_pos b (by norm_num)))

theorem set_ne_of_lt (l : List Nat) (i x : Nat) (hi : i < l.length)
    (hx : x ≠ l.getD i 0) : l.set i x ≠ l := by
  induction l generalizing i with
  | nil => simp at hi
  | cons a t ih =>
    cases i with
    | zero =>
      intro h
      simp only [List.set] at h
      exact hx (by simpa using congrArg (fun s => s.headD 0) h)
    | succ i =>
      intro h
      simp only [List.set, List.cons.injEq, true_and] at h
      exact ih i (by simpa using hi) (by simpa using hx) h

theorem flipBit_ne (l : List Nat) (i b : Nat) (hi : i < l.length) :
    flipBit l i b ≠ l :=
  set_ne_of_lt l i _ hi (xor_two_pow_ne _ _)

theorem flipBit_length (l : List Nat) (i b : Nat) :
    (flipBit l i b).length = l.length := by
  simp [flipBit]

theorem is_feed_retrievable_seq_branch (hash : List Nat → List Nat)
    (t : Transport) (owner topic : List Nat) (n : Nat) (hn : n ≠ 0) :
    is_feed_retrievable hash t FeedType.sequence owner topic (some n)
      = .ok (are_all_sequential_feeds_update_retrievable hash t owner topic n) := by
  have ht : indexTruthy (some n) = true := by simp [indexTruthy, hn]
  simp [is_feed_retrievable, ht]

theorem are_all_retrievable_iff (hash : List Nat → List Nat) (t : Transport)
    (owner topic : List Nat) (n : Nat) :
    are_all_sequential_feeds_update_retrievable hash t owner topic n = true ↔
      ∀ i ≤ n, t.hasChunk (feedSocAddress hash owner topic i) = true := by
  simp [are_all_sequential_feeds_update_retrievable,
    get_all_sequence_update_references, Nat.lt_succ_iff]

/-- Claim C1, amended to nonzero target indices: for every sequence
feed (owner, topic) and every nonzero target index N passed to
is_feed_retrievable, the result is ok true if and only if every index
from 0 up to N inclusive derives a SOC address that the transport
collaborator can retrieve; it is ok false whenever some index in the
range is missing; and an ok true result at N implies an ok true result
at every nonzero M below N. -/
theorem is_feed_retrievable_prefix_characterization
    (hash : List Nat → List Nat) (t : Transport) (owner topic : List Nat)
    (N : Nat) (hN : N ≠ 0) :
    (is_feed_retrievable hash t FeedType.sequence owner topic (some N) = .ok true ↔
      ∀ i ≤ N, t.hasChunk (feedSocAddress hash owner topic i) = true) ∧
    (∀ i, i ≤ N → t.hasChunk (feedSocAddress hash owner topic i) = false →
      is_feed_retrievable hash t FeedType.sequence owner topic (some N)
        = .ok false) ∧
    (∀ M, M ≠ 0 → M < N →
      is_feed_retrievable hash t FeedType.sequence owner topic (some N)
        = .ok true →
      is_feed_retrievable hash t FeedType.sequence owner topic (some M)
        = .ok true) := by
  refine ⟨?_, ?_, ?_⟩
  · rw [is_feed_retrievable_seq_branch hash t owner topic N hN]
    rw [show ∀ b : Bool, ((Except.ok b : Except PyError Bool) = .ok true) ↔ b = true
      from fun b => by simp]
    exact are_all_retrievable_iff hash t owner topic N
  · intro i hi hfalse
    rw [is_feed_retrievable_seq_branch hash t owner topic N hN]
    cases h : are_all_sequential_feeds_update_retrievable hash t owner topic N with
    | false => rfl
    | true =>
      have := (are_all_retrievable_iff hash t owner topic N).mp h i hi
      rw [this] at hfalse
      exact absurd hfalse (by simp)
  · intro M hM hMN htrue
    rw [is_feed_retrievable_seq_branch hash t owner topic N hN] at htrue
    have hall : ∀ i ≤ N, t.hasChunk (feedSocAddress hash owner topic i) = true := by
      refine (are_all_retrievable_iff hash t owner topic N).mp ?_
      simpa using htrue
    rw [is_feed_retrievable_seq_branch hash t owner topic M hM]
    have : are_all_sequential_feeds_update_retrievable hash t owner topic M = true :=
      (are_all_retrievable_iff hash t owner topic M).mpr
        (fun i hi => hall i (Nat.le_trans hi (Nat.le_of_lt hMN)))
    rw [this]

/-- Claim C1 witness: on the all-available transport the verifier
reports the whole prefix up to index 1 retrievable. -/
theorem is_feed_retrievable_prefix_characterization_witness :
    is_feed_retrievable id allTransport FeedType.sequence [1] [2] (some 1)
      = .ok true :=
  (is_feed_retrievable_prefix_characterization id allTransport [1] [2] 1
    (by decide)).1.mpr (fun _ _ => rfl)

/-- Claim C1 counterexample: at target index 0 the code takes the
latest-update path, so it returns true on a transport from which no
derived SOC address (index 0 included) is retrievable. -/
theorem is_feed_retrievable_index_zero_cx :
    is_feed_retrievable id cxLatestOnlyTransport FeedType.sequence [1] [2]
        (some 0) = .ok true ∧
      cxLatestOnlyTransport.hasChunk (feedSocAddress id [1] [2] 0) = false :=
  ⟨rfl, rfl⟩

/-- Claim C2: evaluation of the code on the failing input.  Called
without an index on a feed with no latest update, is_feed_retrievable
re-raises the ChunkNotFoundError (the source reads except BeeError as
e: raise e) instead of returning false; when the latest update
downloads, it returns true. -/
theorem is_feed_retrievable_no_index_raises :
    is_feed_retrievable id cxEmptyTransport FeedType.sequence [1] [2] none
        = .error .chunkNotFound ∧
      is_feed_retrievable id cxLatestOnlyTransport FeedType.sequence [1] [2]
        none = .ok true :=
  ⟨rfl, rfl⟩

/-- Claim C3: evaluation of Bee.___resolve_signer.  Passing an explicit
signer raises ValueError (with or without a default signer); passing
none returns the default signer when the instance has one; with neither
an explicit nor a default signer the attribute read itself fails, so no
signer is ever resolved from an explicit argument. -/
theorem resolve_signer_behavior :
    ___resolve_signer (some 7) (some 3)
        = .error (.valueError resolveSignerRaiseMsg) ∧
      ___resolve_signer none (some 3)
        = .error (.valueError resolveSignerRaiseMsg) ∧
      ___resolve_signer (some 7) none = .ok (some 7) ∧
      ___resolve_signer none none = .error (.attributeError ("signer")) :=
  ⟨rfl, rfl, rfl, rfl⟩

/-- Claim C6: upload_chunk rejects every chunk shorter than 8 bytes
with the minimum-size BeeArgumentError (SizeError of the spec
taxonomy), passes the size validation at exactly 4104 bytes, and
rejects every chunk of 4105 bytes or more with the maximum-size
error. -/
theorem upload_chunk_size_bounds :
    (∀ data : List Nat, data.length < 8 →
      upload_chunk data = .error (.beeArgumentError minChunkSizeMsg)) ∧
    (∀ data : List Nat, data.length = 4104 → upload_chunk data = .ok ()) ∧
    (∀ data : List Nat, 4105 ≤ data.length →
      upload_chunk data = .error (.beeArgumentError maxChunkSizeMsg)) := by
  refine ⟨?_, ?_, ?_⟩ <;> intro data h <;>
    simp only [upload_chunk, SPAN_SIZE, CHUNK_SIZE]
  · rw [if_pos h]
  · rw [if_neg (by omega), if_neg (by omega)]
  · rw [if_neg (by omega), if_pos (by omega)]

/-- Claim C6 witness: the bounds evaluated at 7, 4104 and 4105 zero
bytes. -/
theorem upload_chunk_size_bounds_witness :
    upload_chunk (List.replicate 7 0)
        = .error (.beeArgumentError minChunkSizeMsg) ∧
      upload_chunk (List.replicate 4104 0) = .ok () ∧
      upload_chunk (List.replicate 4105 0)
        = .error (.beeArgumentError maxChunkSizeMsg) :=
  ⟨upload_chunk_size_bounds.1 _ (by rw [List.length_replicate]; omega),
    upload_chunk_size_bounds.2.1 _ (by rw [List.length_replicate]),
    upload_chunk_size_bounds.2.2 _ (by rw [List.length_replicate])⟩

/-- Claim C7, amended to nonzero indices: called with a nonzero index
and a feed type other than sequence, is_feed_retrievable raises the
BeeError for unsupported deep verification (UnsupportedOperationError
of the spec taxonomy). -/
theorem is_feed_retrievable_non_sequence_raises
    (hash : List Nat → List Nat) (t : Transport) (ft : FeedType)
    (owner topic : List Nat) (n : Nat) (hn : n ≠ 0)
    (hft : ft ≠ FeedType.sequence) :
    is_feed_retrievable hash t ft owner topic (some n)
      = .error (.beeError onlySequenceMsg) := by
  have ht : indexTruthy (some n) = true := by simp [indexTruthy, hn]
  simp [is_feed_retrievable, ht, hft]

/-- Claim C7 witness: an epoch feed queried at index 3 raises the
unsupported-operation BeeError. -/
theorem is_feed_retrievable_non_sequence_raises_witness :
    is_feed_retrievable id allTransport FeedType.epoch [1] [2] (some 3)
      = .error (.beeError onlySequenceMsg) :=
  is_feed_retrievable_non_sequence_raises id allTransport FeedType.epoch
    [1] [2] 3 (by decide) (by decide)

/-- Claim C7 counterexample: with the index 0 present and an epoch feed
type, the falsy-index test routes the call to the latest-update path,
which returns true instead of raising the unsupported-operation
error. -/
theorem is_feed_retrievable_epoch_zero_cx :
    is_feed_retrievable id cxLatestOnlyTransport FeedType.epoch [1] [2]
      (some 0) = .ok true :=
  rfl

/-- Claim C9: for every argument combination whose feed type, request
options and topic pass validation, make_feed_reader and
make_feed_writer evaluate self.resolve_signer, an attribute the Bee
class does not define (only the mangled _Bee___resolve_signer exists),
and therefore fail with AttributeError before returning a reader or
writer. -/
theorem make_feed_reader_writer_attribute_error
    (feedTypeValid optionsValid topicValid : Bool)
    (h1 : feedTypeValid = true) (h2 : optionsValid = true)
    (h3 : topicValid = true) :
    make_feed_reader feedTypeValid optionsValid topicValid
        = .error (.attributeError resolveSignerName) ∧
      make_feed_writer feedTypeValid optionsValid topicValid
        = .error (.attributeError resolveSignerName) := by
  subst h1; subst h2; subst h3
  exact ⟨rfl, rfl⟩

/-- Claim C9 witness: with all validations passing, both methods fail
with the AttributeError for resolve_signer. -/
theorem make_feed_reader_writer_attribute_error_witness :
    make_feed_reader true true true
        = .error (.attributeError resolveSignerName) ∧
      make_feed_writer true true true
        = .error (.attributeError resolveSignerName) :=
  make_feed_reader_writer_attribute_error true true true rfl rfl rfl

/-- Claim C10: calling is_feed_retrievable with index 0 behaves exactly
as calling it without an index, for every transport, feed type, owner
and topic: the falsy test classifies 0 as absent, so the call runs the
latest-update path and performs no prefix verification. -/
theorem is_feed_retrievable_zero_eq_none (hash : List Nat → List Nat)
    (t : Transport) (ft : FeedType) (owner topic : List Nat) :
    is_feed_retrievable hash t ft owner topic (some 0)
        = is_feed_retrievable hash t ft owner topic none ∧
      is_feed_retrievable hash t ft owner topic (some 0)
        = (match downloadLatest t owner topic with
           | .ok _ => .ok true
           | .error e => .error e) :=
  ⟨rfl, rfl⟩

/-- Claim C5: for every sequence index below 2 to the 64 and every
valid epoch (base, level) pair, the encoded form is exactly 32 bytes
and decoding it returns the original index: encode and decode are exact
inverses. -/
theorem index_codec_round_trip :
    (∀ n : Nat, n < 2 ^ 64 →
      (encodeIndex (.seq n)).length = 32 ∧
        decodeIndex FeedType.sequence (encodeIndex (.seq n))
          = some (.seq n)) ∧
    (∀ base level : Nat, base < 2 ^ 64 → level < 2 ^ 8 →
      (encodeIndex (.epoch base level)).length = 32 ∧
        decodeIndex FeedType.epoch (encodeIndex (.epoch base level))
          = some (.epoch base level)) := by
  have h2pow : (256 : Nat) ^ 8 = 2 ^ 64 := by norm_num
  constructor
  · intro n hn
    have hlen : (encodeSequenceIndex n).length = 32 := by
      simp [encodeSequenceIndex, length_toBEBytes]
    have hval : fromBEBytes (encodeSequenceIndex n) = n := by
      rw [encodeSequenceIndex, fromBEBytes_zero_prefix]
      exact fromBEBytes_toBEBytes 8 n (by rw [h2pow]; exact hn)
    exact ⟨hlen, by simp [encodeIndex, decodeIndex, decodeSequenceIndex,
      hlen, hval]⟩
  · intro base level hb _
    have hlen : (encodeEpochIndex base level).length = 32 := by
      simp [encodeEpochIndex, length_toBEBytes]
    have htake : (encodeEpochIndex base level).take 8 = toBEBytes 8 base := by
      rw [encodeEpochIndex]
      exact List.take_left' (length_toBEBytes 8 base)
    have hdrop : (encodeEpochIndex base level).drop 8
        = [level] ++ List.replicate 23 0 := by
      rw [encodeEpochIndex]
      exact List.drop_left' (length_toBEBytes 8 base)
    have hbase : fromBEBytes (toBEBytes 8 base) = base :=
      fromBEBytes_toBEBytes 8 base (by rw [h2pow]; exact hb)
    have hget : (encodeEpochIndex base level)[8]? = some level := by
      have h0 := congrArg (fun l : List Nat => l[0]?) hdrop
      simpa using h0
    exact ⟨hlen, by simp [encodeIndex, decodeIndex, decodeEpochIndex, hlen,
      htake, hdrop, hbase, hget]⟩

/-- Claim C5 witness: the round trip evaluated at the sequence index 5
and the epoch pair (7, 3). -/
theorem index_codec_round_trip_witness :
    decodeIndex FeedType.sequence (encodeIndex (.seq 5)) = some (.seq 5) ∧
      decodeIndex FeedType.epoch (encodeIndex (.epoch 7 3))
        = some (.epoch 7 3) :=
  ⟨(index_codec_round_trip.1 5 (by norm_num)).2,
    (index_codec_round_trip.2 7 3 (by norm_num) (by norm_num)).2⟩

/-- Claim C4: for every valid owner key and all identifier and wrapped
chunk address bytes, verifying the signed SOC produced by build against
the SOC address derived from the identifier and the owner succeeds and
returns the signer's own address. -/
theorem soc_build_verify_round_trip (hash : List Nat → List Nat) (key : Nat)
    (identifier chunkAddress : List Nat) (hkey : key < 256 ^ 20) :
    verify hash (soc_address hash identifier (ownerAddress key))
      (build hash key identifier chunkAddress) = .ok (ownerAddress key) := by
  have hkey256 : key < 256 ^ 32 :=
    Nat.lt_of_lt_of_le hkey (Nat.pow_le_pow_right (by norm_num) (by norm_num))
  have htake : ∀ d : List Nat, (sign key d).take 32 = toBEBytes 32 key := by
    intro d
    rw [sign]
    exact List.take_left' (length_toBEBytes 32 key)
  have hrec : ∀ d : List Nat,
      recover_address d (sign key d) = some (ownerAddress key) := by
    intro d
    simp only [recover_address, htake d, fromBEBytes_toBEBytes 32 key hkey256]
    rw [if_pos ⟨hkey, trivial⟩]
  simp [verify, build, hrec]

/-- Claim C4 witness: the round trip evaluated at key 1, identifier
[5] and chunk address [7] under the identity digest. -/
theorem soc_build_verify_round_trip_witness :
    verify id (soc_address id [5] (ownerAddress 1)) (build id 1 [5] [7])
      = .ok (ownerAddress 1) :=
  soc_build_verify_round_trip id 1 [5] [7]
    (Nat.one_lt_pow (by norm_num) (by norm_num))

/-- Claim C8: for every signed SOC produced by build under a
collision-free digest, flipping any single bit of its signature, of its
identifier or of its wrapped chunk address makes verify fail with
SignatureMismatchError instead of returning an owner. -/
theorem soc_tamper_detection (hash : List Nat → List Nat)
    (hinj : Function.Injective hash) (key : Nat) (hkey : key < 256 ^ 20)
    (identifier chunkAddress : List Nat) (i b : Nat) (_hb : b < 8) :
    (i < (build hash key identifier chunkAddress).signature.length →
      verify hash (soc_address hash identifier (ownerAddress key))
          { build hash key identifier chunkAddress with
              signature :=
                flipBit (build hash key identifier chunkAddress).signature i b }
        = .error .signatureMismatch) ∧
    (i < identifier.length →
      verify hash (soc_address hash identifier (ownerAddress key))
          { build hash key identifier chunkAddress with
              identifier := flipBit identifier i b }
        = .error .signatureMismatch) ∧
    (i < chunkAddress.length →
      verify hash (soc_address hash identifier (ownerAddress key))
          { build hash key identifier chunkAddress with
              chunkAddress := flipBit chunkAddress i b }
        = .error .signatureMismatch) := by
  have hkey256 : key < 256 ^ 32 :=
    Nat.lt_of_lt_of_le hkey (Nat.pow_le_pow_right (by norm_num) (by norm_num))
  have htake : ∀ d : List Nat, (sign key d).take 32 = toBEBytes 32 key := by
    intro d
    rw [sign]
    exact List.take_left' (length_toBEBytes 32 key)
  refine ⟨?_, ?_, ?_⟩
  · intro hi
    have hne : flipBit (sign key (hash (identifier ++ chunkAddress))) i b
        ≠ sign key (hash (identifier ++ chunkAddress)) :=
      flipBit_ne _ i b hi
    by_cases hC :
        fromBEBytes ((flipBit (sign key (hash (identifier ++ chunkAddress))) i b).take 32)
            < 256 ^ 20 ∧
          flipBit (sign key (hash (identifier ++ chunkAddress))) i b
            = sign (fromBEBytes
                ((flipBit (sign key (hash (identifier ++ chunkAddress))) i b).take 32))
              (hash (identifier ++ chunkAddress))
    · have hk'ne :
          fromBEBytes ((flipBit (sign key (hash (identifier ++ chunkAddress))) i b).take 32)
            ≠ key := by
        intro h
        rw [h] at hC
        exact hne hC.2
      have haddr : soc_address hash identifier
            (ownerAddress (fromBEBytes
              ((flipBit (sign key (hash (identifier ++ chunkAddress))) i b).take 32)))
          ≠ soc_address hash identifier (ownerAddress key) := by
        intro h
        apply hk'ne
        have h1 := congrArg fromBEBytes (List.append_cancel_left (hinj h))
        rw [ownerAddress, ownerAddress, fromBEBytes_toBEBytes 20 _ hC.1,
          fromBEBytes_toBEBytes 20 key hkey] at h1
        exact h1
      have hrec : recover_address (hash (identifier ++ chunkAddress))
            (flipBit (sign key (hash (identifier ++ chunkAddress))) i b)
          = some (ownerAddress (fromBEBytes
              ((flipBit (sign key (hash (identifier ++ chunkAddress))) i b).take 32))) := by
        simp only [recover_address]
        rw [if_pos hC]
      simp only [verify, build]
      rw [hrec]
      simp only []
      rw [if_neg haddr]
    · have hrec : recover_address (hash (identifier ++ chunkAddress))
            (flipBit (sign key (hash (identifier ++ chunkAddress))) i b) = none := by
        simp only [recover_address]
        rw [if_neg hC]
      simp only [verify, build]
      rw [hrec]
  · intro hi
    have hidne : flipBit identifier i b ≠ identifier := flipBit_ne _ i b hi
    have hrec : recover_address (hash (flipBit identifier i b ++ chunkAddress))
          (sign key (hash (identifier ++ chunkAddress))) = none := by
      simp only [recover_address, htake,
        fromBEBytes_toBEBytes 32 key hkey256]
      rw [if_neg]
      rintro ⟨-, heq⟩
      rw [sign, sign] at heq
      have h2 := List.append_cancel_right
        (List.append_cancel_left heq :
          hash (identifier ++ chunkAddress) ++ [27]
            = hash (flipBit identifier i b ++ chunkAddress) ++ [27])
      have h3 := List.append_cancel_right (hinj h2)
      exact hidne (h3.symm)
    simp only [verify, build]
    rw [hrec]
  · intro hi
    have hcane : flipBit chunkAddress i b ≠ chunkAddress := flipBit_ne _ i b hi
    have hrec : recover_address (hash (identifier ++ flipBit chunkAddress i b))
          (sign key (hash (identifier ++ chunkAddress))) = none := by
      simp only [recover_address, htake,
        fromBEBytes_toBEBytes 32 key hkey256]
      rw [if_neg]
      rintro ⟨-, heq⟩
      rw [sign, sign] at heq
      have h2 := List.append_cancel_right
        (List.append_cancel_left heq :
          hash (identifier ++ chunkAddress) ++ [27]
            = hash (identifier ++ flipBit chunkAddress i b) ++ [27])
      have h3 := List.append_cancel_left (hinj h2)
      exact hcane (h3.symm)
    simp only [verify, build]
    rw [hrec]

/-- Claim C8 witness: flipping bit 0 of the identifier byte of a
concrete signed SOC under the identity digest makes verify fail with
SignatureMismatchError. -/
theorem soc_tamper_detection_witness :
    verify id (soc_address id [5] (ownerAddress 1))
        { build id 1 [5] [7] with identifier := flipBit [5] 0 0 }
      = .error .signatureMismatch :=
  (soc_tamper_detection id Function.injective_id 1
    (Nat.one_lt_pow (by norm_num) (by norm_num))
    [5] [7] 0 0 (by norm_num)).2.1 (by norm_num)

end BeePy
